import Mathlib

/-
Verification development for the OpenRouterLLMComparer repository
(llm_tester_app/app.py): a shallow embedding of the model-query client,
the evaluation store (PostgreSQL table `llm_evaluations` accessed through
one connection with explicit commit/rollback), and the Streamlit session
orchestration (submit handler and save handler), together with theorems
settling the frozen claims about the specification.
-/

namespace LLMTester

/-- Python exceptions that can arise in `query_openrouter_model`.
The `descr` field of each constructor is the text Python renders for the
exception when it is interpolated into an f-string (`str(e)`):
a `KeyError` on a string key renders as the key wrapped in single quotes,
an `IndexError` on a list renders as "list index out of range". -/
inductive PyExc where
  | requestException (descr : String)
  | keyError (descr : String)
  | indexError (descr : String)
  | typeError (descr : String)

/-- The rendered text of an exception, as `str(e)` in Python. -/
def PyExc.descr : PyExc → String
  | PyExc.requestException d => d
  | PyExc.keyError d => d
  | PyExc.indexError d => d
  | PyExc.typeError d => d

/-- A parsed JSON value, the result of `response.json()`. -/
inductive Json where
  | null
  | bool (b : Bool)
  | num (n : Int)
  | str (s : String)
  | arr (elems : List Json)
  | obj (fields : List (String × Json))

/-- Python subscripting `v[k]` with a string key `k`:
on a dict it returns the field or raises `KeyError` (rendered with the key
in single quotes); on any non-dict value it raises a `TypeError`.
(Subscripting a Python string with a string key is also a `TypeError`.) -/
def Json.subscriptKey : Json → String → Except PyExc Json
  | Json.obj fields, k =>
    match fields.lookup k with
    | some v => Except.ok v
    | none => Except.error (PyExc.keyError ("\x27" ++ k ++ "\x27"))
  | _, _ => Except.error (PyExc.typeError "value is not subscriptable by a string key")

/-- Python subscripting `v[i]` with a non-negative integer index `i`:
on a list it returns the element or raises `IndexError`; on a dict it
raises `KeyError` (an integer key renders without quotes); on a string it
returns the one-character string or raises `IndexError` with the string
message; on other values it raises a `TypeError`. -/
def Json.subscriptIdx : Json → Nat → Except PyExc Json
  | Json.arr es, i =>
    match es.get? i with
    | some v => Except.ok v
    | none => Except.error (PyExc.indexError "list index out of range")
  | Json.obj _, i => Except.error (PyExc.keyError (toString i))
  | Json.str s, i =>
    match s.toList.get? i with
    | some c => Except.ok (Json.str (String.mk [c]))
    | none => Except.error (PyExc.indexError "string index out of range")
  | _, _ => Except.error (PyExc.typeError "value is not subscriptable by an index")

/-- Outcome of the HTTP POST issued by `requests.post` followed by
`response.raise_for_status()` and `response.json()`: either a
`requests.exceptions.RequestException` (connection error, or an HTTPError
from a non-2xx status raised by `raise_for_status`) with its rendered
description, or a successfully parsed JSON body. -/
inductive HttpOutcome where
  | transportError (descr : String)
  | success (body : Json)

/-- The body of the `try` block of `query_openrouter_model` (app.py lines
55 to 69).  `secrets` models `st.secrets` as a partial map (a missing key
raises `KeyError`); the lookup of `OPENROUTER_API_KEY` happens while the
header dictionary is built, before the request is sent.  `net` models the
network: the outcome of the POST for a given prompt and model. -/
def queryTry (secrets : String → Option String)
    (net : String → String → HttpOutcome)
    (prompt model_name : String) : Except PyExc Json :=
  match secrets "OPENROUTER_API_KEY" with
  | none => Except.error (PyExc.keyError "\x27OPENROUTER_API_KEY\x27")
  | some _ =>
    match net prompt model_name with
    | HttpOutcome.transportError d => Except.error (PyExc.requestException d)
    | HttpOutcome.success data =>
      match data.subscriptKey "choices" with
      | Except.error e => Except.error e
      | Except.ok choices =>
        match choices.subscriptIdx 0 with
        | Except.error e => Except.error e
        | Except.ok first =>
          match first.subscriptKey "message" with
          | Except.error e => Except.error e
          | Except.ok msg => msg.subscriptKey "content"

/-- Function `query_openrouter_model` (app.py lines 52 to 73): runs the `try`
body; a `RequestException` is converted to the string
"Erro na API: " followed by the rendered exception, a `KeyError` or
`IndexError` is converted to "Erro ao processar a resposta da API: "
followed by the rendered exception; any other exception propagates
(modelled as `Except.error`). -/
def query_openrouter_model (secrets : String → Option String)
    (net : String → String → HttpOutcome)
    (prompt model_name : String) : Except PyExc Json :=
  match queryTry secrets net prompt model_name with
  | Except.ok v => Except.ok v
  | Except.error (PyExc.requestException d) =>
      Except.ok (Json.str ("Erro na API: " ++ d))
  | Except.error (PyExc.keyError d) =>
      Except.ok (Json.str ("Erro ao processar a resposta da API: " ++ d))
  | Except.error (PyExc.indexError d) =>
      Except.ok (Json.str ("Erro ao processar a resposta da API: " ++ d))
  | Except.error e => Except.error e

/-- One column of the DDL in `setup_database` (app.py lines 38 to 47),
recorded exactly as written there: the declared SQL type, whether the
column carries the `PRIMARY KEY` constraint, whether it carries an
explicit `NOT NULL`, and its `DEFAULT` expression if any. -/
structure ColumnDef where
  name : String
  sqlType : String
  primaryKey : Bool
  notNull : Bool
  defaultExpr : Option String

/-- The columns of `CREATE TABLE IF NOT EXISTS llm_evaluations (...)`
in `setup_database`, in DDL order. -/
def llmEvaluationsColumns : List ColumnDef :=
  [ { name := "id", sqlType := "SERIAL", primaryKey := true,
      notNull := false, defaultExpr := none },
    { name := "prompt", sqlType := "TEXT", primaryKey := false,
      notNull := true, defaultExpr := none },
    { name := "model_name", sqlType := "VARCHAR(255)", primaryKey := false,
      notNull := true, defaultExpr := none },
    { name := "response", sqlType := "TEXT", primaryKey := false,
      notNull := true, defaultExpr := none },
    { name := "rating", sqlType := "INTEGER", primaryKey := false,
      notNull := false, defaultExpr := none },
    { name := "created_at", sqlType := "TIMESTAMP", primaryKey := false,
      notNull := false, defaultExpr := some "CURRENT_TIMESTAMP" } ]

/-- One row of the `llm_evaluations` table.  `id` is the value drawn from
the SERIAL sequence at insert time, `created_at` the server-assigned
insertion instant (modelled as a natural-number clock that advances at
each insert).  `response` carries the value the Python code passed for the
`response` parameter (normally the string returned by the query client).
`rating` is nullable, as in the schema. -/
structure Row where
  id : Nat
  prompt : String
  model_name : String
  response : Json
  rating : Option Int
  created_at : Nat

/-- The state of the one PostgreSQL connection together with the store it
reaches: `schema` is the column list of `llm_evaluations` when the table
exists; `committedRows` are the rows visible to readers; `pendingRows`
are rows inserted in the currently open transaction and not yet
committed; `nextId` is the SERIAL sequence head (sequence values are not
reclaimed on rollback); `nextTime` is the server clock used for
`created_at`. -/
structure Db where
  schema : Option (List ColumnDef)
  committedRows : List Row
  pendingRows : List Row
  nextId : Nat
  nextTime : Nat

/-- A store with no table, no rows, and the SERIAL sequence at 1. -/
def emptyDb : Db :=
  { schema := none, committedRows := [], pendingRows := [],
    nextId := 1, nextTime := 0 }

/-- Python `conn.commit()`: the rows of the open transaction become visible. -/
def Db.commit (db : Db) : Db :=
  { db with
    committedRows := db.committedRows ++ db.pendingRows,
    pendingRows := [] }

/-- Python `conn.rollback()`: the rows of the open transaction are discarded
(the SERIAL sequence is not rewound). -/
def Db.rollback (db : Db) : Db :=
  { db with pendingRows := [] }

/-- One execution of `INSERT INTO llm_evaluations (prompt, model_name,
response, rating) VALUES (%s, %s, %s, %s)` (app.py lines 142 to 148):
appends an uncommitted row whose `id` and `created_at` are
server-assigned.  The `rating` parameter is whatever value the caller
passes; the schema puts no range constraint and no NOT NULL on it. -/
def Db.insertRow (db : Db) (prompt model_name : String) (response : Json)
    (rating : Option Int) : Db :=
  { db with
    pendingRows := db.pendingRows ++
      [ { id := db.nextId, prompt := prompt, model_name := model_name,
          response := response, rating := rating,
          created_at := db.nextTime } ],
    nextId := db.nextId + 1,
    nextTime := db.nextTime + 1 }

/-- Function `setup_database` (app.py lines 35 to 48): executes
`CREATE TABLE IF NOT EXISTS llm_evaluations (...)` — a no-op when the
table already exists — and then `conn.commit()`. -/
def setup_database (db : Db) : Db :=
  Db.commit
    { db with
      schema :=
        match db.schema with
        | some t => some t
        | none => some llmEvaluationsColumns }

/-- The store as it stands right after a successful startup on a fresh
database: `get_db_connection` then `setup_database` (app.py lines 87 to 89). -/
def initialDb : Db := setup_database emptyDb

/-- The comparison `ORDER BY created_at DESC` sorts by: `a` may come
before `b` when `b.created_at ≤ a.created_at`. -/
def createdDesc (a b : Row) : Prop := b.created_at ≤ a.created_at

instance : DecidableRel createdDesc := fun a b =>
  inferInstanceAs (Decidable (b.created_at ≤ a.created_at))

instance : IsTotal Row createdDesc :=
  ⟨fun a b => by
    unfold createdDesc
    exact Or.symm (Nat.le_total a.created_at b.created_at)⟩

instance : IsTrans Row createdDesc :=
  ⟨fun _ _ _ h1 h2 => Nat.le_trans h2 h1⟩

/-- The read path of tab 2 (app.py line 168):
`SELECT * FROM llm_evaluations ORDER BY created_at DESC` — every
committed row, sorted by `created_at` descending. -/
def listAll (db : Db) : List Row :=
  List.insertionSort createdDesc db.committedRows

/-- The free-model list offered by the multiselect (app.py lines 18 to 23). -/
def FREE_MODELS : List String :=
  [ "mistralai/mistral-7b-instruct:free",
    "google/gemma-7b-it:free",
    "nousresearch/nous-hermes-2-mixtral-8x7b-dpo:free",
    "openchat/openchat-7b:free" ]

/-- The per-session Streamlit state used by the orchestration
(app.py lines 81 to 84): `st.session_state.responses`, a list of
(model, response) pairs awaiting ratings, and `st.session_state.prompt`,
the prompt captured at submit time.  Both start empty. -/
structure Session where
  responses : List (String × Json)
  prompt : String

/-- A message surfaced to the user: `st.warning`, `st.error`,
`st.success` or `st.info`. -/
inductive Surface where
  | warning (msg : String)
  | error (msg : String)
  | success (msg : String)
  | info (msg : String)

/-- Whether a surfaced message is an `st.error`. -/
def Surface.isError : Surface → Bool
  | Surface.error _ => true
  | _ => false

/-- The loop of the submit handler (app.py lines 117 to 119):
`for model in selected_models: response = query(prompt, model); append`.
Returns the accumulated (model, response) list together with the log of
query-client invocations as (prompt, model) pairs, in call order. -/
def queryLoop (q : String → String → Json) (prompt : String) :
    List String → List (String × Json) × List (String × String)
  | [] => ([], [])
  | m :: ms =>
    let r := q prompt m
    let rest := queryLoop q prompt ms
    ((m, r) :: rest.1, (prompt, m) :: rest.2)

/-- The submit-button handler (app.py lines 109 to 119).  `q` is the
query client (`query_openrouter_model` with its secrets and network
arguments fixed); the handler never touches the database connection, so
the connection state is passed through unchanged.  Guarded: an empty
prompt or an empty model selection surfaces a warning and changes
nothing; otherwise the session prompt is set, the prior pending list is
discarded, and the client is invoked once per selected model in order.
The second result component is the invocation log of `q`. -/
def submitHandler (db : Db) (sess : Session) (prompt_text : String)
    (selected_models : List String) (q : String → String → Json) :
    Db × Session × List (String × String) × Option Surface :=
  if prompt_text = "" then
    (db, sess, [], some (Surface.warning "Por favor, digite uma pergunta."))
  else if selected_models = [] then
    (db, sess, [],
     some (Surface.warning "Por favor, selecione pelo menos um modelo."))
  else
    let out := queryLoop q prompt_text selected_models
    (db, { responses := out.1, prompt := prompt_text }, out.2, none)

/-- Widget `st.slider(min_value=1, max_value=5, ...)` (app.py lines 129 to 134):
the widget yields the minimum when the user has not interacted with it,
and otherwise a value it constrains to the inclusive range. -/
def slider (min_value max_value : Int) (choice : Option Int) : Int :=
  match choice with
  | none => min_value
  | some v => if v < min_value then min_value
              else if max_value < v then max_value else v

/-- The ratings collected by the evaluation form: one slider with bounds
1 and 5 per pending entry, indexed as `ratings[i]` (app.py lines 125 to 134). -/
def formRatings (choices : Nat → Option Int) : Nat → Int :=
  fun i => slider 1 5 (choices i)

/-- The insert loop of the save handler (app.py lines 141 to 148), with
an injected failure oracle: `execErr i = some d` means the i-th
`cur.execute` raises an exception rendered as `d`; `none` means it
succeeds.  On success the final connection state is returned; on failure
the connection state at the point of the exception is returned together
with the exception text (control then jumps to the `except` block). -/
def execBatch (prompt : String) (ratings : Nat → Int)
    (execErr : Nat → Option String) :
    Db → List (String × Json) → Nat → Except (Db × String) Db
  | db, [], _ => Except.ok db
  | db, (m, r) :: rest, i =>
    match execErr i with
    | some d => Except.error (db, d)
    | none =>
      execBatch prompt ratings execErr
        (db.insertRow prompt m r (some (ratings i))) rest (i + 1)

/-- The save handler of the evaluation form (app.py lines 138 to 157):
inside a `try`, one INSERT per pending entry with the session prompt and
that entry's slider rating, then `conn.commit()` (failure oracle
`commitErr`); on success the pending list and the prompt are cleared and
`st.success` is shown (the subsequent `st.rerun` only redraws the page);
on any exception `st.error` is shown and `conn.rollback()` runs, the
session state untouched. -/
def saveHandler (db : Db) (sess : Session) (ratings : Nat → Int)
    (execErr : Nat → Option String) (commitErr : Option String) :
    Db × Session × Surface :=
  match execBatch sess.prompt ratings execErr db sess.responses 0 with
  | Except.error (dbe, d) =>
    (dbe.rollback, sess,
     Surface.error ("Erro ao salvar no banco de dados: " ++ d))
  | Except.ok dbAll =>
    match commitErr with
    | some d =>
      (dbAll.rollback, sess,
       Surface.error ("Erro ao salvar no banco de dados: " ++ d))
    | none =>
      (dbAll.commit, { responses := [], prompt := "" },
       Surface.success "Avaliações salvas com sucesso!")

/-- Function `get_db_connection` (app.py lines 29 to 32): reads
`st.secrets["DB_CONNECTION_STRING"]` — a missing key raises `KeyError` —
and connects; `connect` models `psycopg2.connect` and may itself fail
with a rendered exception. -/
def get_db_connection (secrets : String → Option String)
    (connect : String → Except String Db) : Except String Db :=
  match secrets "DB_CONNECTION_STRING" with
  | none => Except.error "\x27DB_CONNECTION_STRING\x27"
  | some cs => connect cs

/-- Outcome of the startup sequence: either the app halted at
`st.error` followed by `st.stop()`, or it is running with a configured
store. -/
inductive StartupResult where
  | halted (msg : String)
  | running (db : Db)

/-- Whether startup ended in `st.stop()`. -/
def StartupResult.isHalted : StartupResult → Bool
  | StartupResult.halted _ => true
  | StartupResult.running _ => false

/-- The startup guard (app.py lines 87 to 92): connect and create the
schema inside a `try`; any exception is rendered into `st.error` and the
script stops. -/
def startup (secrets : String → Option String)
    (connect : String → Except String Db) : StartupResult :=
  match get_db_connection secrets connect with
  | Except.error e =>
    StartupResult.halted ("Não foi possível conectar ao banco de dados: " ++ e)
  | Except.ok conn => StartupResult.running (setup_database conn)

/-- The arguments of one committed insert, for describing sequences of
saves already applied to the store. -/
structure EvalInput where
  prompt : String
  model_name : String
  response : Json
  rating : Option Int

/-- One insert immediately followed by `conn.commit()`: the effect of a
single-row save on the store. -/
def insertCommitted (db : Db) (e : EvalInput) : Db :=
  Db.commit (db.insertRow e.prompt e.model_name e.response e.rating)

/-- The store reached from a fresh startup by a sequence of committed
inserts. -/
def buildDb (entries : List EvalInput) : Db :=
  entries.foldl insertCommitted initialDb

/-- The row that `Db.insertRow` appends for a given store state and
insert arguments. -/
def newRowOf (db : Db) (e : EvalInput) : Row :=
  { id := db.nextId, prompt := e.prompt, model_name := e.model_name,
    response := e.response, rating := e.rating, created_at := db.nextTime }

/-- Invariant of the store between handler runs: no transaction is left
open, committed rows carry strictly increasing server timestamps and
strictly increasing SERIAL ids, both bounded by the sequence heads. -/
def goodDb (db : Db) : Prop :=
  db.pendingRows = [] ∧
  List.Pairwise (fun a b : Row => a.created_at < b.created_at)
    db.committedRows ∧
  (∀ r ∈ db.committedRows, r.created_at < db.nextTime) ∧
  List.Pairwise (fun a b : Row => a.id < b.id) db.committedRows ∧
  (∀ r ∈ db.committedRows, r.id < db.nextId)

/-- The submit loop accumulates, in list order, one (model, response)
pair and one client invocation per selected model. -/
theorem queryLoop_eq (q : String → String → Json) (p : String) :
    ∀ ms : List String,
      queryLoop q p ms =
        (ms.map fun m => (m, q p m), ms.map fun m => (p, m)) := by
  intro ms
  induction ms with
  | nil => rfl
  | cons m rest ih => simp [queryLoop, ih]

/-- When the insert loop completes, the committed rows and the schema
are untouched, and the open transaction has gained exactly one row per
pending entry, each carrying the session prompt and one of the slider
ratings. -/
theorem execBatch_ok_spec (p : String) (ratings : Nat → Int)
    (execErr : Nat → Option String) :
    ∀ (rs : List (String × Json)) (db db' : Db) (i : Nat),
      execBatch p ratings execErr db rs i = Except.ok db' →
      db'.committedRows = db.committedRows ∧
      db'.schema = db.schema ∧
      ∃ new : List Row,
        db'.pendingRows = db.pendingRows ++ new ∧
        new.length = rs.length ∧
        ∀ r ∈ new, r.prompt = p ∧
          ∃ j, i ≤ j ∧ j < i + rs.length ∧ r.rating = some (ratings j) := by
  intro rs
  induction rs with
  | nil =>
    intro db db' i h
    simp only [execBatch] at h
    cases h
    exact ⟨rfl, rfl, [], by simp, rfl, by simp⟩
  | cons hd tl ih =>
    intro db db' i h
    obtain ⟨m, r⟩ := hd
    simp only [execBatch] at h
    cases he : execErr i with
    | some d => rw [he] at h; exact Except.noConfusion h
    | none =>
      rw [he] at h
      obtain ⟨hc, hs, new, hpend, hlen, hprops⟩ := ih _ db' (i + 1) h
      refine ⟨?_, ?_, ?_⟩
      · simpa [Db.insertRow] using hc
      · simpa [Db.insertRow] using hs
      · refine ⟨(⟨db.nextId, p, m, r, some (ratings i), db.nextTime⟩ : Row)
            :: new, ?_, ?_, ?_⟩
        · rw [hpend]; simp [Db.insertRow]
        · simp [hlen]
        · intro x hx
          rcases List.mem_cons.mp hx with hx | hx
          · subst hx
            exact ⟨rfl, i, Nat.le_refl i,
              by simp only [List.length_cons]; omega, rfl⟩
          · obtain ⟨hxp, j, hj1, hj2, hj3⟩ := hprops x hx
            exact ⟨hxp, j, by omega,
              by simp only [List.length_cons]; omega, hj3⟩

/-- When the insert loop raises, the connection state at the exception
still has the committed rows and the schema of the starting state. -/
theorem execBatch_err_spec (p : String) (ratings : Nat → Int)
    (execErr : Nat → Option String) :
    ∀ (rs : List (String × Json)) (db dbe : Db) (i : Nat) (d : String),
      execBatch p ratings execErr db rs i = Except.error (dbe, d) →
      dbe.committedRows = db.committedRows ∧ dbe.schema = db.schema := by
  intro rs
  induction rs with
  | nil => intro db dbe i d h; exact Except.noConfusion h
  | cons hd tl ih =>
    intro db dbe i d h
    obtain ⟨m, r⟩ := hd
    simp only [execBatch] at h
    cases he : execErr i with
    | some d0 =>
      rw [he] at h
      injection h with h
      cases h
      exact ⟨rfl, rfl⟩
    | none =>
      rw [he] at h
      have := ih _ dbe (i + 1) d h
      simpa [Db.insertRow] using this

/-- The insert loop completes only if the failure oracle is silent on
every index it visits. -/
theorem execBatch_ok_only_if (p : String) (ratings : Nat → Int)
    (execErr : Nat → Option String) :
    ∀ (rs : List (String × Json)) (db db' : Db) (i : Nat),
      execBatch p ratings execErr db rs i = Except.ok db' →
      ∀ j, i ≤ j → j < i + rs.length → execErr j = none := by
  intro rs
  induction rs with
  | nil => intro db db' i _ j h1 h2; simp at h2; omega
  | cons hd tl ih =>
    intro db db' i h j h1 h2
    obtain ⟨m, r⟩ := hd
    simp only [execBatch] at h
    cases he : execErr i with
    | some d => rw [he] at h; exact Except.noConfusion h
    | none =>
      rw [he] at h
      rcases Nat.eq_or_lt_of_le h1 with h1 | h1
      · cases h1; exact he
      · exact ih _ db' (i + 1) h j h1 (by simp at h2 ⊢; omega)

/-- The insert loop completes whenever the failure oracle is silent on
every index it will visit. -/
theorem execBatch_ok_of_none (p : String) (ratings : Nat → Int)
    (execErr : Nat → Option String) :
    ∀ (rs : List (String × Json)) (db : Db) (i : Nat),
      (∀ j, i ≤ j → j < i + rs.length → execErr j = none) →
      ∃ db', execBatch p ratings execErr db rs i = Except.ok db' := by
  intro rs
  induction rs with
  | nil => intro db i _; exact ⟨db, rfl⟩
  | cons hd tl ih =>
    intro db i hnone
    obtain ⟨m, r⟩ := hd
    have he : execErr i = none := hnone i (Nat.le_refl i) (by simp)
    obtain ⟨db', h⟩ :=
      ih (db.insertRow p m r (some (ratings i))) (i + 1)
        (fun j hj1 hj2 => hnone j (by omega) (by simp at hj2 ⊢; omega))
    exact ⟨db', by simp only [execBatch]; rw [he]; exact h⟩

/-- The read path returns a permutation of the committed rows. -/
theorem listAll_perm (db : Db) : List.Perm (listAll db) db.committedRows :=
  List.perm_insertionSort createdDesc db.committedRows

/-- The read path returns rows sorted by `created_at` descending. -/
theorem listAll_sorted (db : Db) : List.Sorted createdDesc (listAll db) :=
  List.sorted_insertionSort createdDesc db.committedRows

/-- The read path depends only on the committed rows. -/
theorem listAll_congr {db1 db2 : Db}
    (h : db1.committedRows = db2.committedRows) : listAll db1 = listAll db2 := by
  simp [listAll, h]

/-- Inserting a row whose timestamp is strictly below every timestamp in
the list sends it to the back. -/
theorem orderedInsert_of_forall_lt (a : Row) :
    ∀ l : List Row, (∀ x ∈ l, a.created_at < x.created_at) →
      List.orderedInsert createdDesc a l = l ++ [a] := by
  intro l
  induction l with
  | nil => intro _; rfl
  | cons b bs ih =>
    intro h
    have hb : ¬ createdDesc a b := by
      have := h b (List.mem_cons_self b bs)
      unfold createdDesc
      omega
    simp only [List.orderedInsert, if_neg hb]
    rw [ih (fun x hx => h x (List.mem_cons_of_mem b hx))]
    rfl

/-- Sorting by `created_at` descending a list whose timestamps are
strictly increasing reverses it. -/
theorem insertionSort_of_ascending :
    ∀ l : List Row,
      List.Pairwise (fun a b : Row => a.created_at < b.created_at) l →
      List.insertionSort createdDesc l = l.reverse := by
  intro l
  induction l with
  | nil => intro _; rfl
  | cons x xs ih =>
    intro h
    rw [List.pairwise_cons] at h
    obtain ⟨hx, hxs⟩ := h
    simp only [List.insertionSort]
    rw [ih hxs,
      orderedInsert_of_forall_lt x xs.reverse
        (fun y hy => hx y (List.mem_reverse.mp hy)),
      List.reverse_cons]

/-- On a store satisfying the between-handler invariant, the read path
is exactly the committed rows most recent first. -/
theorem listAll_eq_reverse {db : Db} (hg : goodDb db) :
    listAll db = db.committedRows.reverse :=
  insertionSort_of_ascending db.committedRows hg.2.1

/-- A fresh startup yields a store satisfying the invariant. -/
theorem goodDb_initialDb : goodDb initialDb := by
  unfold goodDb initialDb setup_database Db.commit emptyDb
  simp

/-- A committed single-row insert appends exactly the server-assigned
row and preserves the invariant. -/
theorem insertCommitted_spec (db : Db) (e : EvalInput) (hg : goodDb db) :
    (insertCommitted db e).committedRows =
      db.committedRows ++ [newRowOf db e] ∧
    goodDb (insertCommitted db e) := by
  obtain ⟨hp, hasc, hbt, hid, hbi⟩ := hg
  have hc : (insertCommitted db e).committedRows =
      db.committedRows ++ [newRowOf db e] := by
    simp [insertCommitted, Db.insertRow, Db.commit, hp, newRowOf]
  refine ⟨hc, rfl, ?_, ?_, ?_, ?_⟩
  · rw [hc, List.pairwise_append]
    refine ⟨hasc, by simp, ?_⟩
    intro a ha b hb
    rw [List.mem_singleton] at hb
    subst hb
    simpa [newRowOf] using hbt a ha
  · rw [hc]
    intro r hr
    rcases List.mem_append.mp hr with hr | hr
    · have := hbt r hr
      simp [insertCommitted, Db.insertRow, Db.commit]
      omega
    · rw [List.mem_singleton] at hr
      subst hr
      simp [insertCommitted, Db.insertRow, Db.commit, newRowOf]
  · rw [hc, List.pairwise_append]
    refine ⟨hid, by simp, ?_⟩
    intro a ha b hb
    rw [List.mem_singleton] at hb
    subst hb
    simpa [newRowOf] using hbi a ha
  · rw [hc]
    intro r hr
    rcases List.mem_append.mp hr with hr | hr
    · have := hbi r hr
      simp [insertCommitted, Db.insertRow, Db.commit]
      omega
    · rw [List.mem_singleton] at hr
      subst hr
      simp [insertCommitted, Db.insertRow, Db.commit, newRowOf]

/-- A sequence of committed single-row inserts preserves the invariant
and grows the committed rows by its length. -/
theorem foldl_insertCommitted_spec :
    ∀ (entries : List EvalInput) (db : Db), goodDb db →
      goodDb (entries.foldl insertCommitted db) ∧
      (entries.foldl insertCommitted db).committedRows.length =
        db.committedRows.length + entries.length := by
  intro entries
  induction entries with
  | nil => intro db hg; exact ⟨hg, by simp⟩
  | cons e es ih =>
    intro db hg
    obtain ⟨hc, hg'⟩ := insertCommitted_spec db e hg
    obtain ⟨hgf, hlf⟩ := ih (insertCommitted db e) hg'
    refine ⟨by simpa using hgf, ?_⟩
    simp only [List.foldl_cons] at hlf ⊢
    rw [hlf, hc]
    simp
    omega

/-- Any store built by a sequence of committed inserts from a fresh
startup satisfies the invariant, with one committed row per insert. -/
theorem buildDb_spec (entries : List EvalInput) :
    goodDb (buildDb entries) ∧
    (buildDb entries).committedRows.length = entries.length := by
  obtain ⟨hg, hl⟩ :=
    foldl_insertCommitted_spec entries initialDb goodDb_initialDb
  refine ⟨hg, ?_⟩
  rw [buildDb, hl]
  simp [initialDb, setup_database, Db.commit, emptyDb]

/-- A secrets store holding both configuration inputs, as in a fully
configured deployment. -/
def secretsFull : String → Option String :=
  fun k =>
    if k = "OPENROUTER_API_KEY" then some "test_api_key"
    else if k = "DB_CONNECTION_STRING" then some "postgresql://localhost/llm"
    else none

/-- The response body of the success-path test:
a `choices` array whose first element holds a message content field
reading "Test response". -/
def testBody : Json :=
  Json.obj
    [ ("choices",
        Json.arr
          [ Json.obj
              [ ("message", Json.obj [("content", Json.str "Test response")]) ] ]) ]

/-- C2: for every prompt and model identifier (with the API key present,
so that the request is actually issued), when the query fails it returns
an error string instead of raising: a transport-level failure with
description d yields exactly "Erro na API: " followed by d; a missing
`choices` key yields "Erro ao processar a resposta da API: " followed by
the rendered KeyError; an empty `choices` array yields the same prefix
followed by the rendered IndexError. -/
theorem C2_query_failure_strings (secrets : String → Option String)
    (net : String → String → HttpOutcome) (tok : String)
    (htok : secrets "OPENROUTER_API_KEY" = some tok) (p m : String) :
    (∀ d, net p m = HttpOutcome.transportError d →
      query_openrouter_model secrets net p m =
        Except.ok (Json.str ("Erro na API: " ++ d))) ∧
    (∀ fields : List (String × Json),
      net p m = HttpOutcome.success (Json.obj fields) →
      fields.lookup "choices" = none →
      query_openrouter_model secrets net p m =
        Except.ok (Json.str
          ("Erro ao processar a resposta da API: " ++ "\x27choices\x27"))) ∧
    (∀ fields : List (String × Json),
      net p m = HttpOutcome.success (Json.obj fields) →
      fields.lookup "choices" = some (Json.arr []) →
      query_openrouter_model secrets net p m =
        Except.ok (Json.str
          ("Erro ao processar a resposta da API: " ++
            "list index out of range"))) := by
  refine ⟨?_, ?_, ?_⟩
  · intro d hnet
    simp [query_openrouter_model, queryTry, htok, hnet]
  · intro fields hnet hlk
    simp [query_openrouter_model, queryTry, htok, hnet,
      Json.subscriptKey, hlk]
  · intro fields hnet hlk
    simp [query_openrouter_model, queryTry, htok, hnet,
      Json.subscriptKey, Json.subscriptIdx, hlk]

/-- C2 witness: a transport failure with underlying error text
"API error" returns exactly "Erro na API: API error". -/
theorem C2_query_failure_strings_witness :
    query_openrouter_model secretsFull
      (fun _ _ => HttpOutcome.transportError "API error")
      "test prompt" "test_model" =
      Except.ok (Json.str "Erro na API: API error") :=
  (C2_query_failure_strings secretsFull
    (fun _ _ => HttpOutcome.transportError "API error")
    "test_api_key" rfl "test prompt" "test_model").1 "API error" rfl

/-- C3: when the HTTP status indicates success and the JSON body holds a
`choices` array whose first element has a message content field, the
query returns that content string verbatim. -/
theorem C3_query_success_verbatim (secrets : String → Option String)
    (net : String → String → HttpOutcome) (tok : String)
    (htok : secrets "OPENROUTER_API_KEY" = some tok) (p m s : String)
    (fields c0fields msgFields : List (String × Json)) (rest : List Json)
    (hnet : net p m = HttpOutcome.success (Json.obj fields))
    (hch : fields.lookup "choices" =
      some (Json.arr (Json.obj c0fields :: rest)))
    (hmsg : c0fields.lookup "message" = some (Json.obj msgFields))
    (hcontent : msgFields.lookup "content" = some (Json.str s)) :
    query_openrouter_model secrets net p m = Except.ok (Json.str s) := by
  simp [query_openrouter_model, queryTry, htok, hnet, Json.subscriptKey,
    Json.subscriptIdx, hch, hmsg, hcontent]

/-- C3 witness: on the body with choices[0].message.content set to
"Test response" the query returns exactly "Test response". -/
theorem C3_query_success_verbatim_witness :
    query_openrouter_model secretsFull
      (fun _ _ => HttpOutcome.success testBody)
      "test prompt" "test_model" = Except.ok (Json.str "Test response") :=
  C3_query_success_verbatim secretsFull
    (fun _ _ => HttpOutcome.success testBody) "test_api_key" rfl
    "test prompt" "test_model" "Test response"
    [ ("choices",
        Json.arr
          [ Json.obj
              [ ("message",
                  Json.obj [("content", Json.str "Test response")]) ] ]) ]
    [ ("message", Json.obj [("content", Json.str "Test response")]) ]
    [ ("content", Json.str "Test response") ]
    [] rfl rfl rfl rfl

/-- A secrets store with the database connection string but no API
bearer token. -/
def secretsNoApiKey : String → Option String :=
  fun k =>
    if k = "DB_CONNECTION_STRING" then some "postgresql://localhost/llm"
    else none

/-- A `psycopg2.connect` that succeeds against a fresh database. -/
def connectFresh : String → Except String Db := fun _ => Except.ok emptyDb

/-- C4 counterexample: with the API bearer token absent but the database
connection string present, startup does NOT halt — the app runs, a query
is still attempted (its KeyError is caught inside the client and turned
into the structural-error string), and the submit flow proceeds,
populating a pending evaluation with that string as the response.  This
refutes the claim that the absence of either configuration input is a
fatal startup error halting all interaction. -/
theorem C4_config_counterexample :
    secretsNoApiKey "OPENROUTER_API_KEY" = none ∧
    StartupResult.isHalted (startup secretsNoApiKey connectFresh) = false ∧
    query_openrouter_model secretsNoApiKey
      (fun _ _ => HttpOutcome.transportError "connection refused")
      "What is 2+2?" "test_model" =
      Except.ok
        (Json.str "Erro ao processar a resposta da API: \x27OPENROUTER_API_KEY\x27") ∧
    (submitHandler emptyDb { responses := [], prompt := "" } "What is 2+2?"
        ["test_model"]
        (fun _ _ =>
          Json.str "Erro ao processar a resposta da API: \x27OPENROUTER_API_KEY\x27")).2.1
      = { responses :=
            [ ("test_model",
                Json.str
                  "Erro ao processar a resposta da API: \x27OPENROUTER_API_KEY\x27") ],
          prompt := "What is 2+2?" } :=
  ⟨rfl, rfl, rfl, rfl⟩

/-- C4 amended: absence of the database connection string is a fatal
startup error: it is surfaced via the startup error message and the app
halts.  Absence of the API bearer token is not fatal and does not halt
interaction: startup succeeds whenever the connection string is present
and the connection succeeds, and each query catches the missing-key
error and returns the structural-error string, so the evaluation flow
continues with that string as the response. -/
theorem C4_config_amended (secrets : String → Option String)
    (connect : String → Except String Db)
    (net : String → String → HttpOutcome) (p m cs : String) (db : Db) :
    (secrets "DB_CONNECTION_STRING" = none →
      startup secrets connect =
        StartupResult.halted
          ("Não foi possível conectar ao banco de dados: \x27DB_CONNECTION_STRING\x27")) ∧
    (secrets "OPENROUTER_API_KEY" = none →
      query_openrouter_model secrets net p m =
        Except.ok
          (Json.str "Erro ao processar a resposta da API: \x27OPENROUTER_API_KEY\x27")) ∧
    (secrets "DB_CONNECTION_STRING" = some cs →
      connect cs = Except.ok db →
      startup secrets connect = StartupResult.running (setup_database db)) := by
  refine ⟨?_, ?_, ?_⟩
  · intro h
    simp [startup, get_db_connection, h]
  · intro h
    simp [query_openrouter_model, queryTry, h]
  · intro h1 h2
    simp [startup, get_db_connection, h1, h2]

/-- C4 amended witness: with no secrets at all, startup halts with the
rendered missing-key error. -/
theorem C4_config_amended_witness :
    startup (fun _ => none) connectFresh =
      StartupResult.halted
        ("Não foi possível conectar ao banco de dados: \x27DB_CONNECTION_STRING\x27") :=
  (C4_config_amended (fun _ => none) connectFresh
    (fun _ _ => HttpOutcome.transportError "x") "p" "m" "cs" emptyDb).1 rfl

/-- C5: for a non-empty prompt and a non-empty model list, the submit
handler discards the prior pending evaluations, invokes the query client
exactly once per model in list order (the invocation log), sets the
session prompt to the submitted text, and the new pending list is
exactly the (model, query result) pairs in list order.  `hq` ties the
abstract client `q` to `query_openrouter_model`.  The store is
untouched. -/
theorem C5_submit_populates (db : Db) (sess : Session) (ptext : String)
    (models : List String) (q : String → String → Json)
    (secrets : String → Option String)
    (net : String → String → HttpOutcome)
    (hp : ptext ≠ "") (hm : models ≠ [])
    (hq : ∀ a b, query_openrouter_model secrets net a b =
      Except.ok (q a b)) :
    submitHandler db sess ptext models q =
      (db,
       { responses := models.map fun m => (m, q ptext m), prompt := ptext },
       models.map fun m => (ptext, m),
       none) := by
  simp [submitHandler, hp, hm, queryLoop_eq]

/-- C5 witness: one model, a transport-failing network; the pending list
becomes the single (model, error-string) pair and the client was invoked
once. -/
theorem C5_submit_populates_witness :
    submitHandler initialDb { responses := [], prompt := "" }
      "What is 2+2?" ["test_model"]
      (fun _ _ => Json.str "Erro na API: API error") =
      (initialDb,
       { responses := [("test_model", Json.str "Erro na API: API error")],
         prompt := "What is 2+2?" },
       [("What is 2+2?", "test_model")],
       none) :=
  C5_submit_populates initialDb { responses := [], prompt := "" }
    "What is 2+2?" ["test_model"]
    (fun _ _ => Json.str "Erro na API: API error") secretsFull
    (fun _ _ => HttpOutcome.transportError "API error")
    (by decide) (by decide) (fun a b => rfl)

/-- C6: an empty prompt, or an empty model selection, is rejected: a
warning is surfaced, the query client is never invoked (empty invocation
log), the store is untouched (no insert), and the session state —
pending evaluations and stored prompt — is unchanged. -/
theorem C6_submit_guard (db : Db) (sess : Session) (models : List String)
    (q : String → String → Json) :
    (submitHandler db sess "" models q =
      (db, sess, [],
       some (Surface.warning "Por favor, digite uma pergunta."))) ∧
    (∀ ptext, ptext ≠ "" →
      submitHandler db sess ptext [] q =
        (db, sess, [],
         some (Surface.warning "Por favor, selecione pelo menos um modelo."))) := by
  constructor
  · simp [submitHandler]
  · intro ptext hp
    simp [submitHandler, hp]

/-- C6 witness: both guards at concrete inputs. -/
theorem C6_submit_guard_witness :
    (submitHandler initialDb { responses := [], prompt := "" } "" FREE_MODELS
      (fun _ _ => Json.null) =
      (initialDb, { responses := [], prompt := "" }, [],
       some (Surface.warning "Por favor, digite uma pergunta."))) ∧
    (submitHandler initialDb { responses := [], prompt := "" } "What is 2+2?"
      [] (fun _ _ => Json.null) =
      (initialDb, { responses := [], prompt := "" }, [],
       some (Surface.warning "Por favor, selecione pelo menos um modelo."))) :=
  ⟨(C6_submit_guard initialDb { responses := [], prompt := "" } FREE_MODELS
      (fun _ _ => Json.null)).1,
   (C6_submit_guard initialDb { responses := [], prompt := "" } []
      (fun _ _ => Json.null)).2 "What is 2+2?" (by decide)⟩

/-- C1: with no transaction left open and a non-empty pending list, the
save is one atomic transaction.  If every insert (and the commit)
succeeds, exactly N new rows are committed on top of the old ones and
become visible via listAll; if any insert fails, the transaction is
rolled back in full and listAll is exactly what it was before the save;
likewise if the commit itself fails. -/
theorem C1_save_atomic (db : Db) (sess : Session) (ratings : Nat → Int)
    (execErr : Nat → Option String) (commitErr : Option String)
    (hclean : db.pendingRows = []) (hne : sess.responses ≠ []) :
    ((∀ j, j < sess.responses.length → execErr j = none) →
      commitErr = none →
      ∃ new : List Row,
        (saveHandler db sess ratings execErr commitErr).1.committedRows =
          db.committedRows ++ new ∧
        new.length = sess.responses.length ∧
        List.Perm (listAll (saveHandler db sess ratings execErr commitErr).1)
          (db.committedRows ++ new)) ∧
    ((∃ k, k < sess.responses.length ∧ execErr k ≠ none) →
      (saveHandler db sess ratings execErr commitErr).1.committedRows =
        db.committedRows ∧
      listAll (saveHandler db sess ratings execErr commitErr).1 =
        listAll db) ∧
    (commitErr ≠ none →
      (saveHandler db sess ratings execErr commitErr).1.committedRows =
        db.committedRows ∧
      listAll (saveHandler db sess ratings execErr commitErr).1 =
        listAll db) := by
  refine ⟨?_, ?_, ?_⟩
  · intro hall hcommit
    obtain ⟨db', hok⟩ := execBatch_ok_of_none sess.prompt ratings execErr
      sess.responses db 0 (fun j _ hj2 => hall j (by omega))
    obtain ⟨hc, hs, new, hpend, hlen, hprops⟩ :=
      execBatch_ok_spec sess.prompt ratings execErr sess.responses db db' 0 hok
    have hres : (saveHandler db sess ratings execErr commitErr).1 =
        db'.commit := by
      simp [saveHandler, hok, hcommit]
    have hcomm : db'.commit.committedRows = db.committedRows ++ new := by
      simp [Db.commit, hc, hpend, hclean]
    refine ⟨new, ?_, hlen, ?_⟩
    · rw [hres, hcomm]
    · rw [hres]
      have hperm := listAll_perm db'.commit
      rwa [hcomm] at hperm
  · rintro ⟨k, hk, hke⟩
    cases hexec : execBatch sess.prompt ratings execErr db sess.responses 0 with
    | ok dbx =>
      exact absurd (execBatch_ok_only_if sess.prompt ratings execErr
        sess.responses db dbx 0 hexec k (by omega) (by omega)) hke
    | error pe =>
      obtain ⟨dbe, d⟩ := pe
      have hspec := execBatch_err_spec sess.prompt ratings execErr
        sess.responses db dbe 0 d hexec
      have hres : (saveHandler db sess ratings execErr commitErr).1 =
          dbe.rollback := by
        simp [saveHandler, hexec]
      constructor
      · rw [hres]
        simpa [Db.rollback] using hspec.1
      · rw [hres]
        exact listAll_congr (by simpa [Db.rollback] using hspec.1)
  · intro hcne
    cases hexec : execBatch sess.prompt ratings execErr db sess.responses 0 with
    | error pe =>
      obtain ⟨dbe, d⟩ := pe
      have hspec := execBatch_err_spec sess.prompt ratings execErr
        sess.responses db dbe 0 d hexec
      have hres : (saveHandler db sess ratings execErr commitErr).1 =
          dbe.rollback := by
        simp [saveHandler, hexec]
      constructor
      · rw [hres]
        simpa [Db.rollback] using hspec.1
      · rw [hres]
        exact listAll_congr (by simpa [Db.rollback] using hspec.1)
    | ok dbx =>
      cases hcval : commitErr with
      | none => exact absurd hcval hcne
      | some d =>
        obtain ⟨hc, hs, new, hpend, hlen, hprops⟩ :=
          execBatch_ok_spec sess.prompt ratings execErr sess.responses
            db dbx 0 hexec
        have hres : (saveHandler db sess ratings execErr (some d)).1 =
            dbx.rollback := by
          simp [saveHandler, hexec]
        constructor
        · rw [hres]
          simpa [Db.rollback] using hc
        · rw [hres]
          exact listAll_congr (by simpa [Db.rollback] using hc)

/-- C1 witness: a save whose single insert fails leaves the committed
rows and the listAll view exactly as before. -/
theorem C1_save_atomic_witness :
    (saveHandler initialDb
      { responses := [("test_model", Json.str "resp")],
        prompt := "What is 2+2?" }
      (fun _ => 4) (fun _ => some "connection lost") none).1.committedRows =
      initialDb.committedRows ∧
    listAll (saveHandler initialDb
      { responses := [("test_model", Json.str "resp")],
        prompt := "What is 2+2?" }
      (fun _ => 4) (fun _ => some "connection lost") none).1 =
      listAll initialDb :=
  (C1_save_atomic initialDb
    { responses := [("test_model", Json.str "resp")],
      prompt := "What is 2+2?" }
    (fun _ => 4) (fun _ => some "connection lost") none rfl
    (by simp)).2.1 ⟨0, by simp, by simp⟩

/-- C7: the save transition's effect on session state is all-or-nothing:
on any insert failure, or a commit failure, the pending list and the
prompt are preserved exactly and an error is surfaced; when every insert
and the commit succeed, the pending list and the prompt are cleared and
the success confirmation is surfaced. -/
theorem C7_save_session_frame (db : Db) (sess : Session)
    (ratings : Nat → Int) (execErr : Nat → Option String)
    (commitErr : Option String) :
    ((∀ j, j < sess.responses.length → execErr j = none) →
      commitErr = none →
      (saveHandler db sess ratings execErr commitErr).2.1 =
        { responses := [], prompt := "" } ∧
      (saveHandler db sess ratings execErr commitErr).2.2 =
        Surface.success "Avaliações salvas com sucesso!") ∧
    ((∃ k, k < sess.responses.length ∧ execErr k ≠ none) →
      (saveHandler db sess ratings execErr commitErr).2.1 = sess ∧
      Surface.isError (saveHandler db sess ratings execErr commitErr).2.2 =
        true) ∧
    (commitErr ≠ none →
      (saveHandler db sess ratings execErr commitErr).2.1 = sess ∧
      Surface.isError (saveHandler db sess ratings execErr commitErr).2.2 =
        true) := by
  refine ⟨?_, ?_, ?_⟩
  · intro hall hcommit
    obtain ⟨db', hok⟩ := execBatch_ok_of_none sess.prompt ratings execErr
      sess.responses db 0 (fun j _ hj2 => hall j (by omega))
    constructor
    · simp [saveHandler, hok, hcommit]
    · simp [saveHandler, hok, hcommit]
  · rintro ⟨k, hk, hke⟩
    cases hexec : execBatch sess.prompt ratings execErr db sess.responses 0 with
    | ok dbx =>
      exact absurd (execBatch_ok_only_if sess.prompt ratings execErr
        sess.responses db dbx 0 hexec k (by omega) (by omega)) hke
    | error pe =>
      obtain ⟨dbe, d⟩ := pe
      constructor
      · simp [saveHandler, hexec]
      · simp [saveHandler, hexec, Surface.isError]
  · intro hcne
    cases hexec : execBatch sess.prompt ratings execErr db sess.responses 0 with
    | error pe =>
      obtain ⟨dbe, d⟩ := pe
      constructor
      · simp [saveHandler, hexec]
      · simp [saveHandler, hexec, Surface.isError]
    | ok dbx =>
      cases hcval : commitErr with
      | none => exact absurd hcval hcne
      | some d =>
        constructor
        · simp [saveHandler, hexec, hcval]
        · simp [saveHandler, hexec, hcval, Surface.isError]

/-- C7 witness: a fully successful save clears the session state and
surfaces the success confirmation. -/
theorem C7_save_session_frame_witness :
    (saveHandler initialDb
      { responses := [("test_model", Json.str "resp")],
        prompt := "What is 2+2?" }
      (fun _ => 4) (fun _ => none) none).2.1 =
      { responses := [], prompt := "" } ∧
    (saveHandler initialDb
      { responses := [("test_model", Json.str "resp")],
        prompt := "What is 2+2?" }
      (fun _ => 4) (fun _ => none) none).2.2 =
      Surface.success "Avaliações salvas com sucesso!" :=
  (C7_save_session_frame initialDb
    { responses := [("test_model", Json.str "resp")],
      prompt := "What is 2+2?" }
    (fun _ => 4) (fun _ => none) none).1 (fun _ _ => rfl) rfl

/-- C8: listAll returns every committed row ordered by created_at
descending (a sorted permutation of the committed rows, for every store
state); after any sequence of N committed inserts from a fresh store it
returns exactly N rows, namely the committed rows most recent first;
inserting one more row places it at the front; and on the empty store
the result is the empty, non-error sequence. -/
theorem C8_listAll_order :
    (∀ db : Db, List.Sorted createdDesc (listAll db) ∧
      List.Perm (listAll db) db.committedRows) ∧
    (∀ entries : List EvalInput,
      (listAll (buildDb entries)).length = entries.length ∧
      listAll (buildDb entries) = (buildDb entries).committedRows.reverse ∧
      ∀ e : EvalInput,
        listAll (insertCommitted (buildDb entries) e) =
          newRowOf (buildDb entries) e :: listAll (buildDb entries)) ∧
    listAll initialDb = [] := by
  refine ⟨fun db => ⟨listAll_sorted db, listAll_perm db⟩, ?_, ?_⟩
  · intro entries
    obtain ⟨hg, hl⟩ := buildDb_spec entries
    have hrev := listAll_eq_reverse hg
    refine ⟨by rw [hrev, List.length_reverse, hl], hrev, ?_⟩
    intro e
    obtain ⟨hc, hg'⟩ := insertCommitted_spec (buildDb entries) e hg
    rw [listAll_eq_reverse hg', hc, List.reverse_append, hrev]
    rfl
  · rfl

/-- C9: schema creation is idempotent: a repeated `setup_database` is
the identity on an already set-up store, a second call is a no-op on an
existing table, and the one table created on a fresh store carries
exactly the columns id, prompt, model_name, response, rating,
created_at, with id the unique primary-key column whose auto-assigned
values are pairwise distinct across committed rows. -/
theorem C9_schema_idempotent :
    (∀ db : Db, setup_database (setup_database db) = setup_database db) ∧
    (∀ db : Db, db.schema = none →
      (setup_database db).schema = some llmEvaluationsColumns) ∧
    (∀ (db : Db) (t : List ColumnDef), db.schema = some t →
      (setup_database db).schema = some t) ∧
    llmEvaluationsColumns.map ColumnDef.name =
      ["id", "prompt", "model_name", "response", "rating", "created_at"] ∧
    (llmEvaluationsColumns.filter (fun c => c.primaryKey)).map
      ColumnDef.name = ["id"] ∧
    (∀ entries : List EvalInput,
      List.Pairwise (fun a b : Row => a.id ≠ b.id)
        (buildDb entries).committedRows) := by
  refine ⟨?_, ?_, ?_, rfl, rfl, ?_⟩
  · intro db
    obtain ⟨sch, c, pend, ni, nt⟩ := db
    cases sch <;> simp [setup_database, Db.commit]
  · intro db h
    simp [setup_database, Db.commit, h]
  · intro db t h
    simp [setup_database, Db.commit, h]
  · intro entries
    obtain ⟨hg, _⟩ := buildDb_spec entries
    exact hg.2.2.2.1.imp (fun h => Nat.ne_of_lt h)

/-- C9 witness: on a fresh store the created table has exactly the
declared columns. -/
theorem C9_schema_idempotent_witness :
    (setup_database emptyDb).schema = some llmEvaluationsColumns :=
  C9_schema_idempotent.2.1 emptyDb rfl

/-- C10: every row inserted through the save path of the form carries a
non-null rating in the inclusive range 1 to 5 (the rating sliders with
bounds 1 and 5 guarantee this) and all rows of one save share the
session prompt captured at submit time — while the persisted schema
declares rating as a plain nullable INTEGER with no constraint, and the
store itself accepts a null rating, so only the orchestration enforces
the invariant. -/
theorem C10_form_rating_invariant (db : Db) (sess : Session)
    (choices : Nat → Option Int) (execErr : Nat → Option String) (db' : Db)
    (hok : execBatch sess.prompt (formRatings choices) execErr db
      sess.responses 0 = Except.ok db') :
    (∀ i, 1 ≤ formRatings choices i ∧ formRatings choices i ≤ 5) ∧
    (∃ new : List Row,
      db'.pendingRows = db.pendingRows ++ new ∧
      new.length = sess.responses.length ∧
      ∀ r ∈ new, r.prompt = sess.prompt ∧
        ∃ v, r.rating = some v ∧ 1 ≤ v ∧ v ≤ 5) ∧
    ((llmEvaluationsColumns.filter (fun c => c.name = "rating")) =
      [ { name := "rating", sqlType := "INTEGER", primaryKey := false,
          notNull := false, defaultExpr := none } ]) ∧
    (∀ (db2 : Db) (p mn : String) (resp : Json),
      (db2.insertRow p mn resp none).pendingRows =
        db2.pendingRows ++
          [⟨db2.nextId, p, mn, resp, none, db2.nextTime⟩]) := by
  have hbound : ∀ i, 1 ≤ formRatings choices i ∧ formRatings choices i ≤ 5 := by
    intro i
    unfold formRatings slider
    cases choices i with
    | none => simp
    | some v =>
      simp only
      split_ifs <;> omega
  refine ⟨hbound, ?_, rfl, fun db2 p mn resp => rfl⟩
  obtain ⟨hc, hs, new, hpend, hlen, hprops⟩ :=
    execBatch_ok_spec sess.prompt (formRatings choices) execErr
      sess.responses db db' 0 hok
  refine ⟨new, hpend, hlen, ?_⟩
  intro r hr
  obtain ⟨hp, j, _, _, hj⟩ := hprops r hr
  exact ⟨hp, formRatings choices j, hj, (hbound j).1, (hbound j).2⟩

/-- C10 witness: a slider left at its position 4 yields a rating within
the bounds. -/
theorem C10_form_rating_invariant_witness :
    1 ≤ formRatings (fun _ => some 4) 0 ∧
    formRatings (fun _ => some 4) 0 ≤ 5 :=
  (C10_form_rating_invariant initialDb
    { responses := [("test_model", Json.str "resp")],
      prompt := "What is 2+2?" }
    (fun _ => some 4) (fun _ => none)
    (Db.insertRow initialDb "What is 2+2?" "test_model" (Json.str "resp")
      (some 4)) rfl).1 0

end LLMTester
